import Mathlib

/-!
Verification of the music streaming analytics pipeline

Shallow embedding of `src/music_analytics.py` (a PySpark batch job) as
functions over Lean lists, together with proofs of the specified
pipeline properties.

Modelling conventions:
* A DataFrame is a `List` of records; `groupBy(...).count()` becomes
  deduplicated keys paired with filter lengths.
* The Spark `orderBy` / `row_number` window ordering leaves tie order
  implementation-defined, and `orderBy(F.rand())` is random; both are
  modelled as function parameters (`rankSort`, `shuffle`, `sortDesc`)
  constrained, where a property needs it, to produce a permutation
  (and, for rankings, a descending-sorted permutation) of their input.
* Timestamps are seconds as `Int`; `timedelta(days=7)` is `7 * 86400`.
* The `float` division in the loyalty score is modelled as exact `ℚ`
  division of the two integer counts.
-/

/-- A row of `listening_logs.csv` after `load_data` (logs schema). -/
structure Event where
  user_id : String
  song_id : String
  timestamp : Int
  duration_sec : Int
deriving DecidableEq

/-- A row of `songs_metadata.csv` (songs schema). -/
structure Song where
  song_id : String
  title : String
  artist : String
  genre : String
  mood : String
deriving DecidableEq

/-- A row of `enriched_logs = logs_df.join(songs_df, on="song_id", how="inner")`. -/
structure Enriched where
  user_id : String
  song_id : String
  timestamp : Int
  duration_sec : Int
  title : String
  artist : String
  genre : String
  mood : String
deriving DecidableEq

/-- The combined row produced by the inner join for one matching pair. -/
def mkEnriched (e : Event) (s : Song) : Enriched :=
  ⟨e.user_id, e.song_id, e.timestamp, e.duration_sec, s.title, s.artist, s.genre, s.mood⟩

/-- The relation `enriched_logs`: inner join of logs and songs on `song_id`
(`music_analytics.py` line 64). -/
def enriched_logs (logs : List Event) (songs : List Song) : List Enriched :=
  logs.flatMap (fun e => (songs.filter (fun s => s.song_id = e.song_id)).map (mkEnriched e))

/-- Model of `groupBy(key).count()`: one `(key, count)` row per distinct key value. -/
def groupCounts {α κ : Type} [DecidableEq κ] (l : List α) (key : α → κ) : List (κ × Nat) :=
  (l.map key).dedup.map (fun k => (k, (l.filter (fun a => key a = k)).length))

/-- With pairwise-distinct keys, the number of songs matching a given key
is 1 if the key occurs, 0 otherwise. -/
theorem length_filter_key_eq (songs : List Song) (k : String)
    (h : (songs.map Song.song_id).Nodup) :
    (songs.filter (fun s => s.song_id = k)).length =
      if k ∈ songs.map Song.song_id then 1 else 0 := by
  induction songs with
  | nil => simp
  | cons s rest ih =>
    simp only [List.map_cons, List.nodup_cons] at h
    by_cases hk : s.song_id = k
    · subst hk
      have h0 : (rest.filter (fun x => x.song_id = s.song_id)).length = 0 := by
        rw [ih h.2]
        simp only [ite_eq_right_iff]
        intro hmem
        exact absurd hmem h.1
      simp [List.filter_cons, h0]
    · have hne : ¬ k = s.song_id := fun hkk => hk hkk.symm
      simp [List.filter_cons, hk, ih h.2, hne]

/-- C3: join cardinality.  When `song_id` is a unique key of the songs
relation, the enriched relation has exactly one row per event whose
`song_id` occurs among the songs; orphan events and unheard songs
contribute nothing. -/
theorem enriched_logs_length (logs : List Event) (songs : List Song)
    (h : (songs.map Song.song_id).Nodup) :
    (enriched_logs logs songs).length =
      (logs.filter (fun e => e.song_id ∈ songs.map Song.song_id)).length := by
  induction logs with
  | nil => simp [enriched_logs]
  | cons e rest ih =>
    simp only [enriched_logs, List.flatMap_cons, List.length_append, List.length_map,
      List.filter_cons]
    rw [length_filter_key_eq songs e.song_id h]
    have ih' := ih
    simp only [enriched_logs] at ih'
    by_cases hmem : e.song_id ∈ songs.map Song.song_id
    · simp [hmem, ih', Nat.add_comm]
    · simp [hmem, ih']

/-- Witness for C3 at a concrete input: two songs with distinct ids, one
matched event, one orphan event. -/
theorem enriched_logs_length_witness :
    ((([⟨"S1", "A", "X", "Pop", "Happy"⟩, ⟨"S2", "B", "Y", "Rock", "Sad"⟩] :
        List Song).map Song.song_id).Nodup) ∧
    (enriched_logs [⟨"U1", "S1", 0, 100⟩, ⟨"U1", "S9", 0, 50⟩]
        [⟨"S1", "A", "X", "Pop", "Happy"⟩, ⟨"S2", "B", "Y", "Rock", "Sad"⟩]).length =
      (([⟨"U1", "S1", 0, 100⟩, ⟨"U1", "S9", 0, 50⟩] : List Event).filter
        (fun e => e.song_id ∈ ([⟨"S1", "A", "X", "Pop", "Happy"⟩,
          ⟨"S2", "B", "Y", "Rock", "Sad"⟩] : List Song).map Song.song_id)).length :=
  ⟨by decide, enriched_logs_length _ _ (by decide)⟩

/-- Generic guarantee of "sort a group descending by measure, keep the
first K": any descending-sorted permutation of the group returns the whole
group when it has at most K members, exactly K rows otherwise, and each
returned row has a measure at least that of each non-returned row. -/
theorem take_topK {α : Type} (measure : α → Nat) (K : Nat) (g s : List α)
    (hperm : s.Perm g) (hsort : s.Sorted (fun a b => measure b ≤ measure a)) :
    (g.length ≤ K → (s.take K).Perm g) ∧
    (K < g.length → (s.take K).length = K) ∧
    (∀ a ∈ s.take K, ∀ b ∈ s.drop K, measure b ≤ measure a) := by
  have hlen : s.length = g.length := hperm.length_eq
  refine ⟨?_, ?_, ?_⟩
  · intro hK
    rw [List.take_of_length_le (by omega)]
    exact hperm
  · intro hK
    rw [List.length_take]
    omega
  · have hp : List.Pairwise (fun a b => measure b ≤ measure a) (s.take K ++ s.drop K) := by
      rw [List.take_append_drop]
      exact hsort
    exact fun a ha b hb => (List.pairwise_append.mp hp).2.2 a ha b hb

/-- The distinct users of the enriched relation (the `partitionBy("user_id")`
groups / `groupBy("user_id")` keys). -/
def users (enriched : List Enriched) : List String :=
  (enriched.map Enriched.user_id).dedup

/-- The rows of `enriched_logs.groupBy("user_id","genre").count()` belonging
to one user: the per-genre play counts of that user (task 1, lines 70-76). -/
def userGenreCounts (enriched : List Enriched) (u : String) : List (String × Nat) :=
  groupCounts (enriched.filter (fun e => e.user_id = u)) Enriched.genre

/-- Task 1 (`task1_user_favorite_genres`): per user, the rank-1 row of the
per-genre counts under the descending `play_count` window order.  The
window order is supplied as `rankSort`; Spark fixes no tie order. -/
def task1_user_favorite_genres
    (rankSort : List (String × Nat) → List (String × Nat))
    (enriched : List Enriched) : List (String × String × Nat) :=
  (users enriched).flatMap
    (fun u => ((rankSort (userGenreCounts enriched u)).take 1).map
      (fun p => (u, p.1, p.2)))

/-- The task-3 time predicate (line 113): keep rows with
`timestamp >= one_week_ago`; the source imposes no upper bound. -/
def weekFiltered (enriched : List Enriched) (now : Int) : List Enriched :=
  enriched.filter (fun e => now - 7 * 86400 ≤ e.timestamp)

/-- The `(song_id, title, artist)` grouping key of task 3. -/
def songKey (e : Enriched) : String × String × String :=
  (e.song_id, e.title, e.artist)

/-- The per-song play counts of task 3 after the week filter
(lines 112-116). -/
def weekSongCounts (enriched : List Enriched) (now : Int) :
    List ((String × String × String) × Nat) :=
  groupCounts (weekFiltered enriched now) songKey

/-- Task 3 (`task3_top_songs_this_week`): descending sort by `play_count`
(order supplied as `sortDesc`), then `limit(10)`. -/
def task3_top_songs_this_week
    (sortDesc : List ((String × String × String) × Nat) →
      List ((String × String × String) × Nat))
    (enriched : List Enriched) (now : Int) :
    List ((String × String × String) × Nat) :=
  (sortDesc (weekSongCounts enriched now)).take 10

/-- C4: top-K completeness for both top-K analyses.  For the K=1 window
per user of task 1 and the K=10 limit of task 3, any descending-sorted permutation
of the group yields: the whole group when it has at most K members,
exactly K rows otherwise, and each kept row has a play count at least
that of each dropped row. -/
theorem topK_completeness (enriched : List Enriched) (now : Int) (u : String)
    (s1 : List (String × Nat)) (s10 : List ((String × String × String) × Nat))
    (h1p : s1.Perm (userGenreCounts enriched u))
    (h1s : s1.Sorted (fun a b => b.2 ≤ a.2))
    (h10p : s10.Perm (weekSongCounts enriched now))
    (h10s : s10.Sorted (fun a b => b.2 ≤ a.2)) :
    (((userGenreCounts enriched u).length ≤ 1 →
        (s1.take 1).Perm (userGenreCounts enriched u)) ∧
      (1 < (userGenreCounts enriched u).length → (s1.take 1).length = 1) ∧
      (∀ a ∈ s1.take 1, ∀ b ∈ s1.drop 1, b.2 ≤ a.2)) ∧
    (((weekSongCounts enriched now).length ≤ 10 →
        (s10.take 10).Perm (weekSongCounts enriched now)) ∧
      (10 < (weekSongCounts enriched now).length → (s10.take 10).length = 10) ∧
      (∀ a ∈ s10.take 10, ∀ b ∈ s10.drop 10, b.2 ≤ a.2)) :=
  ⟨take_topK Prod.snd 1 _ s1 h1p h1s, take_topK Prod.snd 10 _ s10 h10p h10s⟩

/-- Concrete enriched rows used by several witnesses: one user, two plays
of a Pop song and one of a Rock song, all at timestamp 0. -/
def sampleEnriched : List Enriched :=
  [⟨"U1", "S1", 0, 100, "A", "X", "Pop", "Happy"⟩,
   ⟨"U1", "S1", 0, 110, "A", "X", "Pop", "Happy"⟩,
   ⟨"U1", "S2", 0, 120, "B", "Y", "Rock", "Sad"⟩]

/-- Witness for C4: on `sampleEnriched` at `now = 0`, the identity order
is already descending, and the guarantee holds concretely. -/
theorem topK_completeness_witness :
    ((([("Pop", 2), ("Rock", 1)] : List (String × Nat)).Perm
        (userGenreCounts sampleEnriched "U1")) ∧
      (([("Pop", 2), ("Rock", 1)] : List (String × Nat)).Sorted
        (fun a b => b.2 ≤ a.2))) ∧
    ((((userGenreCounts sampleEnriched "U1").length ≤ 1 →
        (([("Pop", 2), ("Rock", 1)] : List (String × Nat)).take 1).Perm
          (userGenreCounts sampleEnriched "U1")) ∧
      (1 < (userGenreCounts sampleEnriched "U1").length →
        ((([("Pop", 2), ("Rock", 1)] : List (String × Nat)).take 1).length = 1)) ∧
      (∀ a ∈ ([("Pop", 2), ("Rock", 1)] : List (String × Nat)).take 1,
        ∀ b ∈ ([("Pop", 2), ("Rock", 1)] : List (String × Nat)).drop 1,
          b.2 ≤ a.2)) ∧
    (((weekSongCounts sampleEnriched 0).length ≤ 10 →
        ((weekSongCounts sampleEnriched 0).take 10).Perm
          (weekSongCounts sampleEnriched 0)) ∧
      (10 < (weekSongCounts sampleEnriched 0).length →
        ((weekSongCounts sampleEnriched 0).take 10).length = 10) ∧
      (∀ a ∈ (weekSongCounts sampleEnriched 0).take 10,
        ∀ b ∈ (weekSongCounts sampleEnriched 0).drop 10, b.2 ≤ a.2))) :=
  ⟨⟨by decide, by decide⟩,
    topK_completeness sampleEnriched 0 "U1" _ _ (by decide) (by decide)
      (by decide) (by decide)⟩

/-- The rows of `enriched_logs.groupBy("user_id","mood").count()` belonging
to one user (task 4, lines 128-130). -/
def moodCounts (enriched : List Enriched) (u : String) : List (String × Nat) :=
  groupCounts (enriched.filter (fun e => e.user_id = u)) Enriched.mood

/-- The cohort `sad_song_listeners` (task 4, lines 132-137): users whose rank-1 mood
row under the descending count window order carries mood `"Sad"`.  The
window order is supplied as `rankSort`. -/
def sad_song_listeners (rankSort : List (String × Nat) → List (String × Nat))
    (enriched : List Enriched) : List String :=
  (users enriched).filter
    (fun u => (rankSort (moodCounts enriched u)).head?.map Prod.fst = some "Sad")

/-- The relation `user_songs` (lines 140-142): distinct `(user_id, song_id)` pairs. -/
def user_songs (enriched : List Enriched) : List (String × String) :=
  (enriched.map (fun e => (e.user_id, e.song_id))).dedup

/-- Per-user `user_listened_songs` (lines 155-158): the collected
song ids of the distinct pairs of that user. -/
def userListenedSongs (enriched : List Enriched) (u : String) : List String :=
  ((user_songs enriched).filter (fun p => p.1 = u)).map Prod.snd

/-- The relation `happy_songs` (lines 145-146). -/
def happy_songs (songs : List Song) : List Song :=
  songs.filter (fun s => s.mood = "Happy")

/-- A row of the task-4 output relation. -/
structure Recommendation where
  user_id : String
  song_id : String
  title : String
  artist : String
deriving DecidableEq

/-- Per-member `user_recommendations` (lines 161-166): happy
songs the user has not listened to, in random order (`shuffle` models
`orderBy(F.rand())`), limited to 3, tagged with the user id. -/
def userRecommendations (shuffle : List Song → List Song)
    (enriched : List Enriched) (songs : List Song) (u : String) :
    List Recommendation :=
  ((shuffle ((happy_songs songs).filter
      (fun s => s.song_id ∉ userListenedSongs enriched u))).take 3).map
    (fun s => ⟨u, s.song_id, s.title, s.artist⟩)

/-- Task 4 (`task4_happy_song_recommendations`): the driver loop over the
collected cohort (lines 149-174) concatenates the per-user blocks; with
an empty cohort the result is the empty relation (lines 171-183). -/
def task4_happy_song_recommendations
    (rankSort : List (String × Nat) → List (String × Nat))
    (shuffle : List Song → List Song)
    (enriched : List Enriched) (songs : List Song) : List Recommendation :=
  (sad_song_listeners rankSort enriched).flatMap
    (userRecommendations shuffle enriched songs)

/-- Blocks tagged with the group key contribute nothing to the filter of
another key. -/
theorem filter_tagged_flatMap_eq_nil {α β : Type} [DecidableEq α]
    (f : α → List β) (tag : β → α) (us : List α) (u : α) (hu : u ∉ us)
    (htag : ∀ v ∈ us, ∀ b ∈ f v, tag b = v) :
    (us.flatMap f).filter (fun b => tag b = u) = [] := by
  induction us with
  | nil => simp
  | cons v rest ih =>
    have hne : u ≠ v := fun h => hu (h ▸ List.mem_cons_self v rest)
    have hurest : u ∉ rest := fun h => hu (List.mem_cons_of_mem v h)
    rw [List.flatMap_cons, List.filter_append,
      ih hurest (fun w hw b hb => htag w (List.mem_cons_of_mem v hw) b hb),
      List.append_nil]
    apply List.filter_eq_nil_iff.mpr
    intro b hb
    have hb' := htag v (List.mem_cons_self v rest) b hb
    have hvu : ¬ v = u := fun h => hne h.symm
    simp [hb', hvu]

/-- Filtering a concatenation of key-tagged blocks by one key keeps at
most the block of that key. -/
theorem length_filter_tagged_flatMap {α β : Type} [DecidableEq α]
    (f : α → List β) (tag : β → α) (us : List α) (u : α) (hnd : us.Nodup)
    (htag : ∀ v ∈ us, ∀ b ∈ f v, tag b = v) :
    ((us.flatMap f).filter (fun b => tag b = u)).length ≤ (f u).length := by
  induction us with
  | nil => simp
  | cons v rest ih =>
    rw [List.nodup_cons] at hnd
    rw [List.flatMap_cons, List.filter_append, List.length_append]
    by_cases hv : v = u
    · subst hv
      have h0 : ((rest.flatMap f).filter (fun b => tag b = v)) = [] :=
        filter_tagged_flatMap_eq_nil f tag rest v hnd.1
          (fun w hw b hb => htag w (List.mem_cons_of_mem v hw) b hb)
      rw [h0]
      simp only [List.length_nil, Nat.add_zero]
      exact List.length_filter_le _ _
    · have h0 : ((f v).filter (fun b => tag b = u)) = [] := by
        apply List.filter_eq_nil_iff.mpr
        intro b hb
        have hb' := htag v (List.mem_cons_self v rest) b hb
        simp [hb', hv]
      rw [h0]
      simp only [List.length_nil, Nat.zero_add]
      exact ih hnd.2 (fun w hw b hb => htag w (List.mem_cons_of_mem v hw) b hb)

/-- Every row of a per-user recommendation block carries the id of that
user. -/
theorem userRecommendations_tag (shuffle : List Song → List Song)
    (enriched : List Enriched) (songs : List Song) (u : String) :
    ∀ r ∈ userRecommendations shuffle enriched songs u, r.user_id = u := by
  intro r hr
  rcases List.mem_map.mp hr with ⟨s, _, rfl⟩
  rfl

/-- A per-user recommendation block has at most 3 rows. -/
theorem userRecommendations_length_le (shuffle : List Song → List Song)
    (enriched : List Enriched) (songs : List Song) (u : String) :
    (userRecommendations shuffle enriched songs u).length ≤ 3 := by
  rw [userRecommendations, List.length_map]
  exact List.length_take_le 3 _

/-- C1: recommendation invariant.  Whenever the random order is a
permutation, every emitted recommendation pairs a user with a catalog
song of mood `"Happy"` for which the user has zero events in the batch,
and each user receives at most 3 recommendation rows. -/
theorem recommendation_invariant
    (rankSort : List (String × Nat) → List (String × Nat))
    (shuffle : List Song → List Song)
    (hsh : ∀ l, (shuffle l).Perm l)
    (logs : List Event) (songs : List Song) :
    (∀ r ∈ task4_happy_song_recommendations rankSort shuffle
        (enriched_logs logs songs) songs,
      (∃ s ∈ songs, s.song_id = r.song_id ∧ s.mood = "Happy") ∧
      (∀ e ∈ logs, e.user_id = r.user_id → e.song_id ≠ r.song_id)) ∧
    (∀ u, ((task4_happy_song_recommendations rankSort shuffle
        (enriched_logs logs songs) songs).filter
          (fun r => r.user_id = u)).length ≤ 3) := by
  constructor
  · intro r hr
    rcases List.mem_flatMap.mp hr with ⟨u, hu, hru⟩
    rcases List.mem_map.mp hru with ⟨s, hs_take, rfl⟩
    have hs_pool : s ∈ (happy_songs songs).filter
        (fun s => s.song_id ∉ userListenedSongs (enriched_logs logs songs) u) :=
      (hsh _).mem_iff.mp (List.mem_of_mem_take hs_take)
    rcases List.mem_filter.mp hs_pool with ⟨hs_happy, hs_notin⟩
    rcases List.mem_filter.mp hs_happy with ⟨hs_songs, hs_mood⟩
    have hmood : s.mood = "Happy" := by simpa using hs_mood
    have hnotin : s.song_id ∉ userListenedSongs (enriched_logs logs songs) u := by
      simpa using hs_notin
    refine ⟨⟨s, hs_songs, rfl, hmood⟩, ?_⟩
    intro e he hue hse
    have hue' : e.user_id = u := hue
    have hse' : e.song_id = s.song_id := hse
    apply hnotin
    have hrow : mkEnriched e s ∈ enriched_logs logs songs := by
      apply List.mem_flatMap.mpr
      refine ⟨e, he, List.mem_map.mpr ⟨s, ?_, rfl⟩⟩
      exact List.mem_filter.mpr ⟨hs_songs, by simp [hse'.symm]⟩
    have hpair : (u, s.song_id) ∈ user_songs (enriched_logs logs songs) := by
      apply List.mem_dedup.mpr
      apply List.mem_map.mpr
      exact ⟨mkEnriched e s, hrow, by simp [mkEnriched, hue', hse']⟩
    apply List.mem_map.mpr
    refine ⟨(u, s.song_id), List.mem_filter.mpr ⟨hpair, by simp⟩, rfl⟩
  · intro u
    have hnd : (sad_song_listeners rankSort (enriched_logs logs songs)).Nodup :=
      (List.nodup_dedup _).filter _
    calc ((task4_happy_song_recommendations rankSort shuffle
          (enriched_logs logs songs) songs).filter
            (fun r => r.user_id = u)).length
        ≤ (userRecommendations shuffle (enriched_logs logs songs) songs u).length :=
          length_filter_tagged_flatMap _ Recommendation.user_id _ u hnd
            (fun v _ b hb => userRecommendations_tag shuffle _ songs v b hb)
      _ ≤ 3 := userRecommendations_length_le shuffle _ songs u

/-- The §8 scenario songs: one Happy, one Sad. -/
def scenarioSongs : List Song :=
  [⟨"S001", "A", "X", "Pop", "Happy"⟩, ⟨"S002", "B", "Y", "Pop", "Sad"⟩]

/-- The §8 scenario logs: user U1 plays the Sad song twice. -/
def scenarioLogs : List Event :=
  [⟨"U1", "S002", 0, 200⟩, ⟨"U1", "S002", 60, 210⟩]

/-- Witness for C1 at the §8 scenario with the identity orders. -/
theorem recommendation_invariant_witness :
    (∀ r ∈ task4_happy_song_recommendations id id
        (enriched_logs scenarioLogs scenarioSongs) scenarioSongs,
      (∃ s ∈ scenarioSongs, s.song_id = r.song_id ∧ s.mood = "Happy") ∧
      (∀ e ∈ scenarioLogs, e.user_id = r.user_id → e.song_id ≠ r.song_id)) ∧
    (∀ u, ((task4_happy_song_recommendations id id
        (enriched_logs scenarioLogs scenarioSongs) scenarioSongs).filter
          (fun r => r.user_id = u)).length ≤ 3) :=
  recommendation_invariant id id (fun l => List.Perm.refl l) scenarioLogs scenarioSongs

/-- C2: on the §8 scenario the qualifying cohort is non-empty, so the
driver loop of lines 149-168 (modelled as the per-actor concatenation
above) runs its sequential per-actor body; the pipeline output there is
a single recommendation of the unheard Happy song. -/
theorem cohort_nonempty_scenario :
    sad_song_listeners id (enriched_logs scenarioLogs scenarioSongs) = ["U1"] ∧
    task4_happy_song_recommendations id id
        (enriched_logs scenarioLogs scenarioSongs) scenarioSongs =
      [⟨"U1", "S001", "A", "X"⟩] := by
  constructor <;> rfl

/-- The filesystem-level state the run manipulates: whether the previous
run artifacts still exist, which analysis outputs the current run has
written, and whether the input sources are present. -/
structure RunState where
  priorArtifacts : Bool
  taskOutputs : List String
  inputPresent : Bool
deriving DecidableEq

/-- The seven output locations (lines 20-28). -/
def outputSubdirs : List String :=
  ["user_favorite_genres", "avg_listen_time_per_song", "top_songs_this_week",
   "happy_recommendations", "genre_loyalty_scores", "night_owl_users",
   "enriched_logs"]

/-- Model of `prepare_output_directory` (lines 15-33): `shutil.rmtree` deletes the
existing output tree — including the artifacts of the prior run — then recreates
empty subdirectories. -/
def prepare_output_directory (st : RunState) : RunState :=
  { st with priorArtifacts := false, taskOutputs := [] }

/-- The failure a run can hit after the output directory is prepared:
`spark.read` on a missing input source. -/
inductive RunFailure where
  | missingSource
deriving DecidableEq

/-- The `__main__` sequence (lines 244-266): prepare the output
directory, then load the inputs (failing if a source is missing), then
run all analyses, each writing its artifact. -/
def runMain (st : RunState) : RunState × Option RunFailure :=
  let st1 := prepare_output_directory st
  if st1.inputPresent then
    ({ st1 with taskOutputs := outputSubdirs }, none)
  else
    (st1, some RunFailure.missingSource)

/-- Counterexample to C5: starting from a state holding the artifacts of
the prior run but missing the input source, the run fails, yet the prior
artifacts are gone — the failed run replaced (destroyed) the prior
output. -/
theorem failed_run_destroys_prior_output :
    (runMain ⟨true, outputSubdirs, false⟩).2 = some RunFailure.missingSource ∧
    (runMain ⟨true, outputSubdirs, false⟩).1.priorArtifacts = false ∧
    (⟨true, outputSubdirs, false⟩ : RunState).priorArtifacts = true := by
  refine ⟨rfl, rfl, rfl⟩

/-- C5 amended: a failed run writes no new analysis output, but because
the output tree is cleared before the inputs are loaded, failure leaves
an empty output skeleton rather than the artifact set of the prior run. -/
theorem failed_run_writes_nothing (st : RunState)
    (h : (runMain st).2.isSome) :
    (runMain st).1.taskOutputs = [] ∧ (runMain st).1.priorArtifacts = false := by
  rw [runMain] at *
  by_cases hin : st.inputPresent
  · simp [prepare_output_directory, hin] at h
  · simp [prepare_output_directory, hin]

/-- Witness for the amended C5 at a concrete failing state. -/
theorem failed_run_writes_nothing_witness :
    ((runMain ⟨true, outputSubdirs, false⟩).2.isSome = true) ∧
    (runMain ⟨true, outputSubdirs, false⟩).1.taskOutputs = [] ∧
    (runMain ⟨true, outputSubdirs, false⟩).1.priorArtifacts = false :=
  ⟨by decide, failed_run_writes_nothing ⟨true, outputSubdirs, false⟩ (by decide)⟩

/-- Modelled from the spec, for comparison with the source: retain only rows whose
timestamp lies in the closed interval `[now - 7 days, now]`. -/
def weekFilteredSpec (enriched : List Enriched) (now : Int) : List Enriched :=
  enriched.filter (fun e => now - 7 * 86400 ≤ e.timestamp ∧ e.timestamp ≤ now)

/-- An enriched row whose timestamp lies one day after the reference
time 0. -/
def futureRow : Enriched := ⟨"U1", "S1", 86400, 100, "A", "X", "Pop", "Happy"⟩

/-- Counterexample to C7: the week filter of the source keeps a row dated
after `now` (it only bounds below), while the claimed closed interval
would drop it. -/
theorem week_filter_keeps_future_row :
    weekFiltered [futureRow] 0 = [futureRow] ∧
    weekFilteredSpec [futureRow] 0 = [] := by
  constructor <;> rfl

/-- C7 amended: task 3 retains exactly the enriched rows with
`timestamp ≥ now - 7 days` — a lower bound only — so each grouped count
equals the number of events with that song key at or after the cutoff,
including events dated after `now`. -/
theorem weekSongCounts_count (enriched : List Enriched) (now : Int)
    (k : String × String × String) (n : Nat)
    (h : (k, n) ∈ weekSongCounts enriched now) :
    n = (enriched.filter
      (fun e => songKey e = k ∧ now - 7 * 86400 ≤ e.timestamp)).length := by
  rcases List.mem_map.mp h with ⟨k', _, heq⟩
  have hk : k' = k := congrArg Prod.fst heq
  have hn : ((weekFiltered enriched now).filter
      (fun a => songKey a = k')).length = n := congrArg Prod.snd heq
  subst hk
  rw [← hn]
  congr 1
  rw [weekFiltered, List.filter_filter]
  apply List.filter_congr
  intro a _
  simp only [Bool.decide_and]

/-- Witness for the amended C7 at a concrete input containing one row
inside the window. -/
theorem weekSongCounts_count_witness :
    ((("S1", "A", "X"), 1) ∈
      weekSongCounts [⟨"U1", "S1", -3600, 100, "A", "X", "Pop", "Happy"⟩] 0) ∧
    1 = (([⟨"U1", "S1", -3600, 100, "A", "X", "Pop", "Happy"⟩] :
        List Enriched).filter
      (fun e => songKey e = ("S1", "A", "X") ∧ 0 - 7 * 86400 ≤ e.timestamp)).length :=
  ⟨by decide, weekSongCounts_count _ 0 _ 1 (by decide)⟩

/-- A raw line of the listening-logs CSV, split into its four fields. -/
structure RawLogRow where
  user_id : String
  song_id : String
  timestamp : String
  duration_sec : String
deriving DecidableEq

/-- A loaded logs row under the declared schema (`StringType`,
`StringType`, `StringType`, `IntegerType`): under the Spark default
PERMISSIVE CSV mode a field that cannot be coerced — or that equals the
default `nullValue` (the empty string) — becomes null, not an error. -/
structure LogRow where
  user_id : Option String
  song_id : Option String
  timestamp : Option String
  duration_sec : Option Int
deriving DecidableEq

/-- The numeric value of a decimal digit character. -/
def digitVal (c : Char) : Option Nat :=
  if c.isDigit then some (c.toNat - 48) else none

/-- Parse a non-empty all-digit character list as a natural number. -/
def parseDigits : List Char → Option Nat
  | [] => none
  | cs => cs.foldl
      (fun acc c =>
        match acc, digitVal c with
        | some n, some d => some (n * 10 + d)
        | _, _ => none)
      (some 0)

/-- The integer coercion behind the Spark `IntegerType` CSV field: optional
sign, decimal digits, 32-bit range; anything else fails to coerce. -/
def parseSparkInt (s : String) : Option Int :=
  let signDigits : Int × List Char :=
    match s.data with
    | '-' :: rest => (-1, rest)
    | '+' :: rest => (1, rest)
    | cs => (1, cs)
  match parseDigits signDigits.2 with
  | none => none
  | some n =>
    let v : Int := signDigits.1 * n
    if -(2 ^ 31) ≤ v ∧ v ≤ 2 ^ 31 - 1 then some v else none

/-- A `StringType` CSV field: the empty string is the default
`nullValue`, everything else coerces to itself. -/
def parseStringField (s : String) : Option String :=
  if s = "" then none else some s

/-- PERMISSIVE coercion of one raw row to the logs schema: malformed
fields become null; the row itself is always produced. -/
def parseLogRow (r : RawLogRow) : LogRow :=
  ⟨parseStringField r.user_id, parseStringField r.song_id,
   parseStringField r.timestamp, parseSparkInt r.duration_sec⟩

/-- Model of `spark.read.schema(logs_schema).option("header","true").csv(...)`
(lines 54-57) under the default PERMISSIVE mode: a total function on the
raw rows — the read never fails on a malformed row. -/
def loadLogs (rows : List RawLogRow) : List LogRow :=
  rows.map parseLogRow

/-- Counterexample to C6: a row with the non-numeric duration `"abc"` is
not rejected; it is loaded with `duration_sec` null-coerced and the run
continues. -/
theorem malformed_row_is_null_coerced :
    loadLogs [⟨"u1", "s1", "2024-01-01 10:00:00", "abc"⟩] =
      [⟨some "u1", some "s1", some "2024-01-01 10:00:00", none⟩] := by
  rfl

/-- C6 amended: the Loader never skips or drops a malformed row and never
fails; a row whose `duration_sec` fails integer coercion is retained with
that field null. -/
theorem loader_retains_malformed_rows (rows : List RawLogRow) (r : RawLogRow)
    (hr : r ∈ rows) (hbad : parseSparkInt r.duration_sec = none) :
    (loadLogs rows).length = rows.length ∧
    parseLogRow r ∈ loadLogs rows ∧
    (parseLogRow r).duration_sec = none := by
  refine ⟨List.length_map _ _, List.mem_map.mpr ⟨r, hr, rfl⟩, ?_⟩
  simpa [parseLogRow] using hbad

/-- Witness for the amended C6 at the malformed concrete row. -/
theorem loader_retains_malformed_rows_witness :
    ((⟨"u1", "s1", "t", "abc"⟩ : RawLogRow) ∈
      ([⟨"u1", "s1", "t", "abc"⟩] : List RawLogRow)) ∧
    parseSparkInt "abc" = none ∧
    ((loadLogs [⟨"u1", "s1", "t", "abc"⟩]).length =
        ([⟨"u1", "s1", "t", "abc"⟩] : List RawLogRow).length ∧
      parseLogRow ⟨"u1", "s1", "t", "abc"⟩ ∈ loadLogs [⟨"u1", "s1", "t", "abc"⟩] ∧
      (parseLogRow ⟨"u1", "s1", "t", "abc"⟩).duration_sec = none) :=
  ⟨by decide, by rfl,
    loader_retains_malformed_rows [⟨"u1", "s1", "t", "abc"⟩] _ (by decide) (by rfl)⟩

/-- Task 2 (`task2_avg_listen_time_per_song`, lines 90-103): per song,
average duration (`F.avg`, modelled as exact rational division) and play
count.  The final descending ordering only affects serialization order
and is not modelled. -/
def task2_avg_listen_time_per_song (logs : List Event) :
    List (String × ℚ × Nat) :=
  (logs.map Event.song_id).dedup.map (fun sid =>
    let plays := logs.filter (fun e => e.song_id = sid)
    (sid, (plays.map (fun e => (e.duration_sec : ℚ))).sum / (plays.length : ℚ),
      plays.length))

/-- Hour of day (`F.hour`) of an epoch-seconds timestamp. -/
def hourOf (t : Int) : Int :=
  (t / 3600) % 24

/-- Task 6 (`task6_night_owl_users`, lines 224-237): plays whose hour is
in `[0, 5)` counted per user (descending ordering not modelled). -/
def task6_night_owl_users (logs : List Event) : List (String × Nat) :=
  groupCounts
    (logs.filter (fun e => 0 ≤ hourOf e.timestamp ∧ hourOf e.timestamp < 5))
    Event.user_id

/-- Per-user `user_total_plays` (task 5, lines 193-196). -/
def totalPlays (enriched : List Enriched) (u : String) : Nat :=
  (enriched.filter (fun e => e.user_id = u)).length

/-- The distinct genres a user has played. -/
def userGenres (enriched : List Enriched) (u : String) : List String :=
  ((enriched.filter (fun e => e.user_id = u)).map Enriched.genre).dedup

/-- Per-user, per-genre `user_genre_plays` (lines 199-202). -/
def genrePlays (enriched : List Enriched) (u g : String) : Nat :=
  ((enriched.filter (fun e => e.user_id = u)).filter (fun e => e.genre = g)).length

/-- Per-user `max_genre_plays` (the `F.max` window, line 208). -/
def maxGenrePlays (enriched : List Enriched) (u : String) : Nat :=
  ((userGenres enriched u).map (genrePlays enriched u)).foldr max 0

/-- A row of the task-5 output relation. -/
structure LoyaltyRow where
  user_id : String
  genre : String
  loyalty_score : ℚ
deriving DecidableEq

/-- Per-user rows of `user_max_genre` joined with `user_total_plays`
(lines 207-214): every genre tied at the user maximum, scored with
`max_genre_plays / total_plays`. -/
def userLoyaltyRows (enriched : List Enriched) (u : String) : List LoyaltyRow :=
  ((userGenres enriched u).filter
      (fun g => genrePlays enriched u g = maxGenrePlays enriched u)).map
    (fun g => ⟨u, g, (maxGenrePlays enriched u : ℚ) / (totalPlays enriched u : ℚ)⟩)

/-- Task 5 (`task5_genre_loyalty_scores`, lines 190-222): the per-user
max-genre rows filtered to `loyalty_score > 0.8` (the final descending
ordering is not modelled). -/
def task5_genre_loyalty_scores (enriched : List Enriched) : List LoyaltyRow :=
  ((users enriched).flatMap (userLoyaltyRows enriched)).filter
    (fun r => (4 : ℚ) / 5 < r.loyalty_score)

/-- A fold by `max` over a list of bounded values is bounded. -/
theorem foldr_max_le (l : List Nat) (n : Nat) (h : ∀ x ∈ l, x ≤ n) :
    l.foldr max 0 ≤ n := by
  induction l with
  | nil => simp
  | cons a t ih =>
    simp only [List.foldr_cons]
    exact max_le (h a (List.mem_cons_self a t))
      (ih (fun x hx => h x (List.mem_cons_of_mem a hx)))

/-- The maximum per-genre play count of a user never exceeds the total
play count of that user. -/
theorem maxGenrePlays_le_totalPlays (enriched : List Enriched) (u : String) :
    maxGenrePlays enriched u ≤ totalPlays enriched u := by
  apply foldr_max_le
  intro x hx
  rcases List.mem_map.mp hx with ⟨g, _, rfl⟩
  exact List.length_filter_le _ _

/-- C8: loyalty bound.  Every emitted loyalty row has
`0.8 < loyalty_score ≤ 1`. -/
theorem loyalty_bound (enriched : List Enriched) (r : LoyaltyRow)
    (hr : r ∈ task5_genre_loyalty_scores enriched) :
    (4 : ℚ) / 5 < r.loyalty_score ∧ r.loyalty_score ≤ 1 := by
  rcases List.mem_filter.mp hr with ⟨hmem, hthr⟩
  have hthr' : (4 : ℚ) / 5 < r.loyalty_score := by simpa using hthr
  refine ⟨hthr', ?_⟩
  rcases List.mem_flatMap.mp hmem with ⟨u, _, hru⟩
  rcases List.mem_map.mp hru with ⟨g, _, heq⟩
  have hscore : r.loyalty_score =
      (maxGenrePlays enriched u : ℚ) / (totalPlays enriched u : ℚ) := by
    rw [← heq]
  rw [hscore] at hthr' ⊢
  by_cases ht : totalPlays enriched u = 0
  · rw [ht] at hthr'
    norm_num at hthr'
  · have ht' : (0 : ℚ) < (totalPlays enriched u : ℚ) := by
      exact_mod_cast Nat.pos_of_ne_zero ht
    rw [div_le_one ht']
    exact_mod_cast maxGenrePlays_le_totalPlays enriched u

/-- Five plays of one genre, used as the loyalty witness input. -/
def loyalEnriched : List Enriched :=
  [⟨"U1", "S1", 0, 100, "A", "X", "Pop", "Happy"⟩,
   ⟨"U1", "S1", 1, 100, "A", "X", "Pop", "Happy"⟩,
   ⟨"U1", "S1", 2, 100, "A", "X", "Pop", "Happy"⟩,
   ⟨"U1", "S1", 3, 100, "A", "X", "Pop", "Happy"⟩,
   ⟨"U1", "S1", 4, 100, "A", "X", "Pop", "Happy"⟩]

/-- Concrete evaluation of task 5 on `loyalEnriched`: the single fully
loyal user is emitted with score 1. -/
theorem task5_loyalEnriched_eval :
    task5_genre_loyalty_scores loyalEnriched = [⟨"U1", "Pop", 1⟩] := by
  have husers : users loyalEnriched = ["U1"] := by decide
  have hg : userGenres loyalEnriched "U1" = ["Pop"] := by decide
  have hgp : genrePlays loyalEnriched "U1" "Pop" = 5 := by decide
  have hmax : maxGenrePlays loyalEnriched "U1" = 5 := by decide
  have htot : totalPlays loyalEnriched "U1" = 5 := by decide
  have hscore : ((maxGenrePlays loyalEnriched "U1" : ℚ) /
      (totalPlays loyalEnriched "U1" : ℚ)) = 1 := by
    rw [hmax, htot]
    norm_num
  have hblock : userLoyaltyRows loyalEnriched "U1" = [⟨"U1", "Pop", 1⟩] := by
    have habs : userLoyaltyRows loyalEnriched "U1" =
        [⟨"U1", "Pop", (maxGenrePlays loyalEnriched "U1" : ℚ) /
          (totalPlays loyalEnriched "U1" : ℚ)⟩] := by
      rw [userLoyaltyRows, hg, List.filter_cons]
      simp [hgp, hmax]
    rw [habs, hscore]
  rw [task5_genre_loyalty_scores, husers]
  simp only [List.flatMap_cons, List.flatMap_nil, List.append_nil, hblock]
  simp only [List.filter_cons, List.filter_nil]
  norm_num

/-- Witness for C8: a fully loyal user is emitted with score 1. -/
theorem loyalty_bound_witness :
    ((⟨"U1", "Pop", 1⟩ : LoyaltyRow) ∈ task5_genre_loyalty_scores loyalEnriched) ∧
    ((4 : ℚ) / 5 < (⟨"U1", "Pop", 1⟩ : LoyaltyRow).loyalty_score ∧
      (⟨"U1", "Pop", 1⟩ : LoyaltyRow).loyalty_score ≤ 1) :=
  ⟨by rw [task5_loyalEnriched_eval]; exact List.mem_singleton.mpr rfl,
    loyalty_bound loyalEnriched _
      (by rw [task5_loyalEnriched_eval]; exact List.mem_singleton.mpr rfl)⟩

/-- Two disjoint filters never jointly exceed the length of the list. -/
theorem length_filter_add_length_filter_le {α : Type} (l : List α)
    (p q : α → Bool) (h : ∀ a, p a = true → q a = false) :
    (l.filter p).length + (l.filter q).length ≤ l.length := by
  induction l with
  | nil => simp
  | cons a t ih =>
    rw [List.filter_cons, List.filter_cons]
    have hlen : (a :: t).length = t.length + 1 := rfl
    by_cases hp : p a = true
    · rw [if_pos hp, if_neg (by simp [h a hp])]
      have hlp : (a :: List.filter p t).length = (List.filter p t).length + 1 := rfl
      omega
    · rw [if_neg hp]
      by_cases hq : q a = true
      · rw [if_pos hq]
        have hlq : (a :: List.filter q t).length = (List.filter q t).length + 1 := rfl
        omega
      · rw [if_neg hq]
        omega

/-- Every loyalty row of a per-user block carries the id of that user. -/
theorem userLoyaltyRows_tag (enriched : List Enriched) (u : String) :
    ∀ r ∈ userLoyaltyRows enriched u, r.user_id = u := by
  intro r hr
  rcases List.mem_map.mp hr with ⟨g, _, rfl⟩
  rfl

/-- The thresholded per-user loyalty block has at most one row: two
distinct genres tied at the maximum would force
`2 * max ≤ total`, hence a score of at most 1/2, below the 0.8 cutoff. -/
theorem userLoyaltyRows_filter_length (enriched : List Enriched) (u : String) :
    ((userLoyaltyRows enriched u).filter
      (fun r => (4 : ℚ) / 5 < r.loyalty_score)).length ≤ 1 := by
  by_cases hth : (4 : ℚ) / 5 <
      (maxGenrePlays enriched u : ℚ) / (totalPlays enriched u : ℚ)
  · have hle : ((userGenres enriched u).filter
        (fun g => genrePlays enriched u g = maxGenrePlays enriched u)).length ≤ 1 := by
      by_contra hlen
      push_neg at hlen
      have hnd : ((userGenres enriched u).filter
          (fun g => genrePlays enriched u g = maxGenrePlays enriched u)).Nodup :=
        (List.nodup_dedup _).filter _
      cases hcase : (userGenres enriched u).filter
          (fun g => genrePlays enriched u g = maxGenrePlays enriched u) with
      | nil =>
        rw [hcase] at hlen
        simp at hlen
      | cons g1 tl =>
        cases htl : tl with
        | nil =>
          rw [hcase, htl] at hlen
          simp at hlen
        | cons g2 rest =>
          rw [hcase] at hnd
          rw [htl] at hnd
          have hne : g1 ≠ g2 := by
            intro hgg
            exact (List.nodup_cons.mp hnd).1 (hgg ▸ List.mem_cons_self g2 rest)
          have hg1 : g1 ∈ (userGenres enriched u).filter
              (fun g => genrePlays enriched u g = maxGenrePlays enriched u) := by
            rw [hcase]
            exact List.mem_cons_self _ _
          have hg2 : g2 ∈ (userGenres enriched u).filter
              (fun g => genrePlays enriched u g = maxGenrePlays enriched u) := by
            rw [hcase, htl]
            exact List.mem_cons_of_mem _ (List.mem_cons_self _ _)
          have hm1 : genrePlays enriched u g1 = maxGenrePlays enriched u := by
            simpa using (List.mem_filter.mp hg1).2
          have hm2 : genrePlays enriched u g2 = maxGenrePlays enriched u := by
            simpa using (List.mem_filter.mp hg2).2
          have hdisj : genrePlays enriched u g1 + genrePlays enriched u g2 ≤
              totalPlays enriched u := by
            apply length_filter_add_length_filter_le
            intro e he
            have h1 : e.genre = g1 := by simpa using he
            simp [h1, hne]
          rw [hm1, hm2] at hdisj
          have ht0 : totalPlays enriched u ≠ 0 := by
            intro h0
            rw [h0] at hth
            norm_num at hth
          have htQ : (0 : ℚ) < (totalPlays enriched u : ℚ) := by
            exact_mod_cast Nat.pos_of_ne_zero ht0
          rw [div_lt_div_iff₀ (by norm_num) htQ] at hth
          have hcast : (maxGenrePlays enriched u : ℚ) +
              (maxGenrePlays enriched u : ℚ) ≤ (totalPlays enriched u : ℚ) := by
            exact_mod_cast hdisj
          have hm0 : (0 : ℚ) ≤ (maxGenrePlays enriched u : ℚ) := by positivity
          linarith
    calc ((userLoyaltyRows enriched u).filter
          (fun r => (4 : ℚ) / 5 < r.loyalty_score)).length
        ≤ (userLoyaltyRows enriched u).length := List.length_filter_le _ _
      _ ≤ 1 := by
          rw [userLoyaltyRows, List.length_map]
          exact hle
  · have hnil : (userLoyaltyRows enriched u).filter
        (fun r => (4 : ℚ) / 5 < r.loyalty_score) = [] := by
      apply List.filter_eq_nil_iff.mpr
      intro r hrow
      rcases List.mem_map.mp hrow with ⟨g, _, rfl⟩
      simpa using hth
    rw [hnil]
    simp

/-- C10: the loyalty output has at most one row per user.  Although every
genre tied at the user maximum is kept by the max filter, two or more
tied genres force a loyalty score of at most 1/2, so the 0.8 threshold
leaves at most one row per user. -/
theorem loyalty_one_row_per_user (enriched : List Enriched) (u : String) :
    ((task5_genre_loyalty_scores enriched).filter
      (fun r => r.user_id = u)).length ≤ 1 := by
  rw [task5_genre_loyalty_scores, List.filter_flatMap]
  calc (((users enriched).flatMap (fun v => (userLoyaltyRows enriched v).filter
        (fun r => (4 : ℚ) / 5 < r.loyalty_score))).filter
          (fun r => r.user_id = u)).length
      ≤ ((userLoyaltyRows enriched u).filter
          (fun r => (4 : ℚ) / 5 < r.loyalty_score)).length :=
        length_filter_tagged_flatMap _ LoyaltyRow.user_id _ u (List.nodup_dedup _)
          (fun v _ b hb => userLoyaltyRows_tag enriched v b (List.mem_filter.mp hb).1)
    _ ≤ 1 := userLoyaltyRows_filter_length enriched u

/-- C9: idempotent empty input.  With an empty event relation every
analysis produces a well-formed empty relation, and an empty cohort
produces an empty (not missing, not failing) recommendation relation. -/
theorem empty_input_empty_outputs
    (rankSort : List (String × Nat) → List (String × Nat))
    (shuffle : List Song → List Song)
    (sortDesc : List ((String × String × String) × Nat) →
      List ((String × String × String) × Nat))
    (now : Int) (songs : List Song)
    (hsd : (sortDesc []).Perm []) :
    task1_user_favorite_genres rankSort [] = [] ∧
    task2_avg_listen_time_per_song [] = [] ∧
    task3_top_songs_this_week sortDesc [] now = [] ∧
    task4_happy_song_recommendations rankSort shuffle [] songs = [] ∧
    task5_genre_loyalty_scores [] = [] ∧
    task6_night_owl_users [] = [] ∧
    (∀ e s, sad_song_listeners rankSort e = [] →
      task4_happy_song_recommendations rankSort shuffle e s = []) := by
  refine ⟨rfl, rfl, ?_, rfl, rfl, rfl, ?_⟩
  · have h0 : sortDesc (weekSongCounts [] now) = [] := List.Perm.eq_nil hsd
    rw [task3_top_songs_this_week, h0]
    rfl
  · intro e s h
    rw [task4_happy_song_recommendations, h]
    rfl

/-- Witness for C9 with the identity orders. -/
theorem empty_input_empty_outputs_witness :
    ((id ([] : List ((String × String × String) × Nat))).Perm []) ∧
    (task1_user_favorite_genres id [] = [] ∧
      task2_avg_listen_time_per_song [] = [] ∧
      task3_top_songs_this_week id [] 0 = [] ∧
      task4_happy_song_recommendations id id [] scenarioSongs = [] ∧
      task5_genre_loyalty_scores [] = [] ∧
      task6_night_owl_users [] = [] ∧
      (∀ e s, sad_song_listeners id e = [] →
        task4_happy_song_recommendations id id e s = [])) :=
  ⟨List.Perm.refl _,
    empty_input_empty_outputs id id id 0 scenarioSongs (List.Perm.refl _)⟩
